import Mathlib

/-!
Verification development for the LykeChat social-media backend
(deepak748030/LykeChat-Social-Media-Platform-Backend).

The MongoDB collections are shallowly embedded as Lean lists of documents
(one structure per mongoose schema, keeping the source field names), mongoose
`findById` / `findOne` as a first-match search, `document.save()` and
`updateOne` / `findByIdAndUpdate` with `$inc` as a first-match in-place
update, and each express controller as a pure function from the store (plus
its request parameters) to an HTTP status, the response fields it reports,
and the updated store.  JavaScript numbers used as counters are embedded as
`Int` (they go negative when decremented below zero), rating averages as
`Rat` (exact division), and `Date` values as `Nat` timestamps.
-/

/-- First-match update: the embedding of a mongoose `updateOne` / `save`
persisting step, which rewrites exactly the first (in practice unique)
document matching the filter and leaves the rest of the collection alone. -/
def updateFirst {α : Type} (p : α → Bool) (f : α → α) : List α → List α
  | [] => []
  | x :: xs => if p x then f x :: xs else x :: updateFirst p f xs

/-- First-match search on a keyed collection: the embedding of mongoose
`findById` (or `findOne` on a unique key). -/
def findKey {α : Type} (key : α → Nat) (l : List α) (k : Nat) : Option α :=
  l.find? (fun x => decide (key x = k))

/-- Keyed first-match update, the embedding of `updateOne {_id: k}` /
`findByIdAndUpdate k`. -/
def updateKey {α : Type} (key : α → Nat) (l : List α) (k : Nat) (f : α → α) : List α :=
  updateFirst (fun x => decide (key x = k)) f l

/-- JavaScript `Array.prototype.splice(indexOf(a), 1)`: remove the first
occurrence of `a`, if any. -/
def removeFirst {α : Type} [DecidableEq α] : List α → α → List α
  | [], _ => []
  | x :: xs, a => if x = a then xs else x :: removeFirst xs a

theorem findKey_updateKey_same {α : Type} (key : α → Nat) (f : α → α) (k : Nat)
    (l : List α) (hf : ∀ x, key x = k → key (f x) = k) :
    findKey key (updateKey key l k f) k = (findKey key l k).map f := by
  induction l with
  | nil => rfl
  | cons x xs ih =>
    by_cases hx : key x = k
    · simp [findKey, updateKey, updateFirst, hx, List.find?, hf x hx]
    · simpa [findKey, updateKey, updateFirst, hx, List.find?] using ih

theorem findKey_updateKey_ne {α : Type} (key : α → Nat) (f : α → α) {k k2 : Nat}
    (l : List α) (hne : k ≠ k2) (hf : ∀ x, key x = k2 → key (f x) = k2) :
    findKey key (updateKey key l k2 f) k = findKey key l k := by
  induction l with
  | nil => rfl
  | cons x xs ih =>
    by_cases hx : key x = k2
    · have hfx : key (f x) = k2 := hf x hx
      have h1 : ¬ key (f x) = k := by rw [hfx]; exact fun h => hne h.symm
      have h2 : ¬ key x = k := by rw [hx]; exact fun h => hne h.symm
      simp [findKey, updateKey, updateFirst, hx, List.find?, h1, h2, Ne.symm hne]
    · by_cases hk : key x = k
      · simp [findKey, updateKey, updateFirst, hx, List.find?, hk, hne]
      · simpa [findKey, updateKey, updateFirst, hx, List.find?, hk] using ih

theorem removeFirst_append_self {α : Type} [DecidableEq α] {l : List α} {a : α}
    (h : a ∉ l) : removeFirst (l ++ [a]) a = l := by
  induction l with
  | nil => simp [removeFirst]
  | cons x xs ih =>
    have hx : x ≠ a := fun he => h (he ▸ List.mem_cons_self x xs)
    have hxs : a ∉ xs := fun hm => h (List.mem_cons_of_mem x hm)
    simp [removeFirst, hx, ih hxs]

theorem removeFirst_length {α : Type} [DecidableEq α] {l : List α} {a : α}
    (h : a ∈ l) : (removeFirst l a).length + 1 = l.length := by
  induction l with
  | nil => cases h
  | cons x xs ih =>
    by_cases hx : x = a
    · simp [removeFirst, hx]
    · have hm : a ∈ xs := by
        rcases List.mem_cons.mp h with h1 | h1
        · exact absurd h1.symm hx
        · exact h1
      simp [removeFirst, hx, ← ih hm]

theorem removeFirst_not_mem {α : Type} [DecidableEq α] {l : List α} {a : α}
    (h : a ∉ l) : removeFirst l a = l := by
  induction l with
  | nil => rfl
  | cons x xs ih =>
    have hx : x ≠ a := fun he => h (he ▸ List.mem_cons_self x xs)
    have hxs : a ∉ xs := fun hm => h (List.mem_cons_of_mem x hm)
    simp [removeFirst, hx, ih hxs]

/-! ## Mongoose value model -/

/-- A JavaScript runtime value as it appears inside a lean (plain-object)
document array: either a BSON `ObjectId` or a plain string.  JavaScript
`Array.prototype.includes` compares with SameValueZero, under which an
`ObjectId` object and the string produced by `ObjectId.toString()` are never
equal; the constructors of this type are correspondingly distinct. -/
inductive JsVal where
  | oid (n : Nat) : JsVal
  | str (s : String) : JsVal
deriving DecidableEq, Repr

/-- The hex string returned by `ObjectId.prototype.toString()`; only its
injectivity and its being a string (not an object) matter here. -/
def oidToString (n : Nat) : String := toString n

/-! ## Cache Store

Modelled from the spec: `src/config/cache.js` (the node-cache instances
`userCache`, `postCache`, `storyCache`, `serviceCache`) is not part of the
provided sources, so the Cache Store follows spec section 4.1: per-key TTL,
lazy expiry checked at access time, `set` overwriting the key with a fresh
TTL. -/

structure CacheEntry (α : Type) where
  value : α
  expireAt : Nat
deriving DecidableEq, Repr

/-- A cache namespace: a key-value store with per-entry absolute expiry. -/
def Cache (κ α : Type) := κ → Option (CacheEntry α)

/-- Empty cache namespace. -/
def Cache.empty {κ α : Type} : Cache κ α := fun _ => none

/-- Lazy-expiry read: a key whose TTL has elapsed is treated as absent. -/
def cacheGet {κ α : Type} (now : Nat) (c : Cache κ α) (k : κ) : Option α :=
  match c k with
  | some e => if now < e.expireAt then some e.value else none
  | none => none

/-- Write with a TTL of `ttl` seconds from `now`. -/
def cacheSet {κ α : Type} [DecidableEq κ] (now ttl : Nat) (c : Cache κ α) (k : κ)
    (v : α) : Cache κ α :=
  fun k2 => if k2 = k then some ⟨v, now + ttl⟩ else c k2

/-! ## User  (src/models/User.js, src/controllers/userController.js)

Fields not touched by the verified operations (phone, bio, location, ...)
are omitted.  `followers` and `following` store `ObjectId` values, embedded
as `JsVal` so that the `ObjectId`-vs-string comparison in `getUserProfile`
is represented faithfully; the mongoose casting `includes`/`indexOf` used by
the hydrated-document methods `follow`/`unfollow` compares `ObjectId`s by
value, embedded as membership of `JsVal.oid`. -/

structure User where
  id : Nat
  profileId : String
  followers : List JsVal
  following : List JsVal
  followersCount : Int
  followingCount : Int
  postsCount : Int
  isActive : Bool
deriving DecidableEq, Repr

/-- `User.findById` over the users collection. -/
def findUser (us : List User) (uid : Nat) : Option User :=
  findKey User.id us uid

/-- `user.save()`: persist the (fully rewritten) document with its id. -/
def saveUser (us : List User) (u : User) : List User :=
  updateKey User.id us u.id (fun _ => u)

/-- `this.following.push(userId); this.followingCount++` on the document. -/
def User.pushFollowing (a : User) (bId : Nat) : User :=
  { a with following := a.following ++ [JsVal.oid bId],
           followingCount := a.followingCount + 1 }

/-- `userToFollow.followers.push(this._id); userToFollow.followersCount++`. -/
def User.pushFollower (b : User) (aId : Nat) : User :=
  { b with followers := b.followers ++ [JsVal.oid aId],
           followersCount := b.followersCount + 1 }

/-- `this.following.splice(followingIndex, 1); this.followingCount--`. -/
def User.pullFollowing (a : User) (bId : Nat) : User :=
  { a with following := removeFirst a.following (JsVal.oid bId),
           followingCount := a.followingCount - 1 }

/-- `followers.splice(followerIndex, 1); followersCount--`. -/
def User.pullFollower (b : User) (aId : Nat) : User :=
  { b with followers := removeFirst b.followers (JsVal.oid aId),
           followersCount := b.followersCount - 1 }

/-- `userSchema.methods.follow` called on the hydrated document `a` with
argument `bId`: push + increment on `a`, save, then re-fetch the target and
push + increment its followers side if absent. -/
def followM (us : List User) (a : User) (bId : Nat) : List User :=
  if JsVal.oid bId ∈ a.following then us
  else
    let us1 := saveUser us (a.pushFollowing bId)
    match findUser us1 bId with
    | none => us1
    | some b =>
      if JsVal.oid a.id ∈ b.followers then us1
      else saveUser us1 (b.pushFollower a.id)

/-- `userSchema.methods.unfollow` called on the hydrated document `a` with
argument `bId`: splice + decrement on `a` if present, save, then re-fetch the
target and splice + decrement its followers side if present. -/
def unfollowM (us : List User) (a : User) (bId : Nat) : List User :=
  if JsVal.oid bId ∈ a.following then
    let us1 := saveUser us (a.pullFollowing bId)
    match findUser us1 bId with
    | none => us1
    | some b =>
      if JsVal.oid a.id ∈ b.followers then saveUser us1 (b.pullFollower a.id)
      else us1
  else us

/-- The `isFollowing` computation of `getUserProfile`
(src/controllers/userController.js line 37): the profile is a `.lean()`
plain object, so `user.followers` holds `ObjectId` values and the check
`user.followers.includes(currentUserId.toString())` compares each of them
with a string under SameValueZero. -/
def isFollowingCheck (u : User) (currentUserId : Option Nat) : Bool :=
  match currentUserId with
  | some cid => JsVal.str (oidToString cid) ∈ u.followers
  | none => false

/-- `getUserProfile`: cache read-through on key `profile:<profileId>`
(string keys embedded as the profileId itself), `findOne({profileId})` on a
miss, 404 when absent, then the `isFollowing` computation on the (cached or
fresh) lean document.  Returns (status, isFollowing, updated cache). -/
def getUserProfile (cache : Cache String User) (now : Nat) (us : List User)
    (pid : String) (currentUserId : Option Nat) :
    Nat × Option Bool × Cache String User :=
  match cacheGet now cache pid with
  | some u => (200, some (isFollowingCheck u currentUserId), cache)
  | none =>
    match us.find? (fun u => decide (u.profileId = pid)) with
    | none => (404, none, cache)
    | some u =>
      (200, some (isFollowingCheck u currentUserId), cacheSet now 1800 cache pid u)


/-! ### C5 and C10 theorems -/

theorem saveUser_find_ne (us : List User) (u : User) (k : Nat) (h : k ≠ u.id) :
    findUser (saveUser us u) k = findUser us k :=
  findKey_updateKey_ne User.id (fun _ => u) us h (fun _ _ => rfl)

theorem saveUser_find_self (us : List User) (u : User) :
    findUser (saveUser us u) u.id = (findUser us u.id).map (fun _ => u) :=
  findKey_updateKey_same User.id (fun _ => u) u.id us (fun _ _ => rfl)

theorem pushFollowing_id (a : User) (bId : Nat) : (a.pushFollowing bId).id = a.id := rfl

theorem pushFollower_id (b : User) (aId : Nat) : (b.pushFollower aId).id = b.id := rfl

theorem pull_pushFollowing (a : User) (bId : Nat)
    (h : JsVal.oid bId ∉ a.following) : (a.pushFollowing bId).pullFollowing bId = a := by
  cases a
  simp [User.pushFollowing, User.pullFollowing, removeFirst_append_self h]

theorem pull_pushFollower (b : User) (aId : Nat)
    (h : JsVal.oid aId ∉ b.followers) : (b.pushFollower aId).pullFollower aId = b := by
  cases b
  simp [User.pushFollower, User.pullFollower, removeFirst_append_self h]

/-- C5: for accounts A and B with A not following B (neither membership list
relates them), `follow(A,B)` followed by `unfollow(A,B)` — the second call
acting on the re-fetched document of A, as two consecutive `toggleFollow`
requests do — returns both stored documents exactly to their pre-sequence
values; in particular `A.followingCount`, `B.followersCount`, `A.following`
and `B.followers` are restored. -/
theorem follow_unfollow_roundtrip (us : List User) (a b a1 : User)
    (ha : findUser us a.id = some a) (hb : findUser us b.id = some b)
    (hne : a.id ≠ b.id)
    (hnf : JsVal.oid b.id ∉ a.following)
    (hnb : JsVal.oid a.id ∉ b.followers)
    (ha1 : findUser (followM us a b.id) a.id = some a1) :
    findUser (unfollowM (followM us a b.id) a1 b.id) a.id = some a ∧
    findUser (unfollowM (followM us a b.id) a1 b.id) b.id = some b := by
  have hab : b.id ≠ a.id := fun h => hne h.symm
  have hfb : findUser (saveUser us (a.pushFollowing b.id)) b.id = some b := by
    rw [saveUser_find_ne us (a.pushFollowing b.id) b.id hab]; exact hb
  have hstep : followM us a b.id
      = saveUser (saveUser us (a.pushFollowing b.id)) (b.pushFollower a.id) := by
    unfold followM
    rw [if_neg hnf]
    simp only [hfb]
    rw [if_neg hnb]
  have hfa1 : findUser (followM us a b.id) a.id = some (a.pushFollowing b.id) := by
    have hself := saveUser_find_self us (a.pushFollowing b.id)
    rw [pushFollowing_id] at hself
    rw [hstep, saveUser_find_ne _ (b.pushFollower a.id) a.id hne, hself, ha]
    rfl
  have ha12 : a1 = a.pushFollowing b.id :=
    Option.some.inj (ha1.symm.trans hfa1)
  subst ha12
  have hfb1 : findUser (followM us a b.id) b.id = some (b.pushFollower a.id) := by
    have hself := saveUser_find_self (saveUser us (a.pushFollowing b.id))
      (b.pushFollower a.id)
    rw [pushFollower_id] at hself
    rw [hstep, hself, hfb]
    rfl
  have hmem : JsVal.oid b.id ∈ (a.pushFollowing b.id).following :=
    List.mem_append_right _ (List.mem_singleton.mpr rfl)
  have hmb : JsVal.oid (a.pushFollowing b.id).id ∈ (b.pushFollower a.id).followers :=
    List.mem_append_right _ (List.mem_singleton.mpr rfl)
  have hrefetch : findUser (saveUser (followM us a b.id)
      ((a.pushFollowing b.id).pullFollowing b.id)) b.id = some (b.pushFollower a.id) := by
    rw [pull_pushFollowing a b.id hnf, saveUser_find_ne _ a b.id hab]
    exact hfb1
  have hstep2 : unfollowM (followM us a b.id) (a.pushFollowing b.id) b.id
      = saveUser (saveUser (followM us a b.id) a) b := by
    unfold unfollowM
    rw [if_pos hmem]
    simp only [hrefetch]
    rw [if_pos hmb, pushFollowing_id, pull_pushFollowing a b.id hnf,
      pull_pushFollower b a.id hnb]
  rw [hstep2]
  constructor
  · have hself := saveUser_find_self (followM us a b.id) a
    rw [saveUser_find_ne _ b a.id hne, hself, hfa1]
    rfl
  · have hself := saveUser_find_self (saveUser (followM us a b.id) a) b
    rw [hself, saveUser_find_ne _ a b.id hab, hfb1]
    rfl

/-- C5 witness: a concrete two-account store where account 1 follows and then
unfollows account 2, returning both documents to their initial values. -/
theorem follow_unfollow_roundtrip_witness :
    findUser (unfollowM (followM [⟨1, "alice", [], [], 0, 0, 0, true⟩,
        ⟨2, "bob", [], [], 0, 0, 0, true⟩] ⟨1, "alice", [], [], 0, 0, 0, true⟩ 2)
      ⟨1, "alice", [], [JsVal.oid 2], 0, 1, 0, true⟩ 2) 1
        = some ⟨1, "alice", [], [], 0, 0, 0, true⟩ ∧
    findUser (unfollowM (followM [⟨1, "alice", [], [], 0, 0, 0, true⟩,
        ⟨2, "bob", [], [], 0, 0, 0, true⟩] ⟨1, "alice", [], [], 0, 0, 0, true⟩ 2)
      ⟨1, "alice", [], [JsVal.oid 2], 0, 1, 0, true⟩ 2) 2
        = some ⟨2, "bob", [], [], 0, 0, 0, true⟩ := by
  exact follow_unfollow_roundtrip
    [⟨1, "alice", [], [], 0, 0, 0, true⟩, ⟨2, "bob", [], [], 0, 0, 0, true⟩]
    ⟨1, "alice", [], [], 0, 0, 0, true⟩ ⟨2, "bob", [], [], 0, 0, 0, true⟩
    ⟨1, "alice", [], [JsVal.oid 2], 0, 1, 0, true⟩
    (by decide) (by decide) (by decide) (by decide) (by decide) (by decide)

/-- C10: `getUserProfile` computes `isFollowing` with
`user.followers.includes(currentUserId.toString())` on a lean document, an
`ObjectId`-versus-string comparison that never succeeds; hence for every
stored profile whose followers list holds `ObjectId` values — reached either
through the cache or through the durable read — the reported `isFollowing`
is `false` for every authenticated requester, including one whose id is in
the followers list. -/
theorem getUserProfile_isFollowing_always_false (cache : Cache String User)
    (now : Nat) (us : List User) (pid : String) (cid : Nat) (u : User)
    (hsrc : cacheGet now cache pid = some u ∨
      (cacheGet now cache pid = none ∧
        us.find? (fun v => decide (v.profileId = pid)) = some u))
    (hoid : ∀ v ∈ u.followers, ∃ n, v = JsVal.oid n) :
    (getUserProfile cache now us pid (some cid)).2.1 = some false := by
  have hchk : isFollowingCheck u (some cid) = false := by
    unfold isFollowingCheck
    simp only [decide_eq_false_iff_not]
    intro hmem
    obtain ⟨n, hn⟩ := hoid _ hmem
    cases hn
  rcases hsrc with hhit | ⟨hmiss, hfind⟩
  · simp [getUserProfile, hhit, hchk]
  · simp [getUserProfile, hmiss, hfind, hchk]

/-- C10 witness: a profile whose followers list contains exactly the
requester's own ObjectId still reports `isFollowing = false`. -/
theorem getUserProfile_isFollowing_always_false_witness :
    (getUserProfile Cache.empty 0
      [⟨9, "carol", [JsVal.oid 5], [], 1, 0, 0, true⟩] "carol" (some 5)).2.1
      = some false := by
  exact getUserProfile_isFollowing_always_false Cache.empty 0
    [⟨9, "carol", [JsVal.oid 5], [], 1, 0, 0, true⟩] "carol" 5
    ⟨9, "carol", [JsVal.oid 5], [], 1, 0, 0, true⟩
    (Or.inr ⟨rfl, by decide⟩)
    (by intro v hv; refine ⟨5, ?_⟩; simpa using hv)

/-! ## Post  (src/models/Post.js, src/controllers/postController.js)

`likes` entries carry `{user, createdAt}`; only the user id participates in
any comparison or count, so the timestamp is omitted.  Fields not touched by
the verified operations (caption, media, tags, location, visibility,
commentsEnabled) are omitted. -/

structure Post where
  id : Nat
  author : Nat
  likes : List Nat
  likesCount : Int
  commentsCount : Int
  sharesCount : Int
  isActive : Bool
deriving DecidableEq, Repr

theorem findKey_some {α : Type} {key : α → Nat} {l : List α} {k : Nat} {v : α}
    (h : findKey key l k = some v) : key v = k := by
  have := List.find?_some h
  simpa using this

def findPost (ps : List Post) (pid : Nat) : Option Post :=
  findKey Post.id ps pid

def savePost (ps : List Post) (p : Post) : List Post :=
  updateKey Post.id ps p.id (fun _ => p)

theorem savePost_find_self (ps : List Post) (p : Post) :
    findPost (savePost ps p) p.id = (findPost ps p.id).map (fun _ => p) :=
  findKey_updateKey_same Post.id (fun _ => p) p.id ps (fun _ _ => rfl)

theorem savePost_find_ne (ps : List Post) (p : Post) (k : Nat) (h : k ≠ p.id) :
    findPost (savePost ps p) k = findPost ps k :=
  findKey_updateKey_ne Post.id (fun _ => p) ps h (fun _ _ => rfl)

/-- `postSchema.methods.isLikedBy`: `likes.some(like => like.user.toString()
=== userId.toString())`. -/
def Post.isLikedBy (p : Post) (uid : Nat) : Bool := uid ∈ p.likes

/-- The document mutation of `postSchema.methods.like`:
`this.likes.push({user: userId}); this.likesCount++`. -/
def Post.likeDoc (p : Post) (uid : Nat) : Post :=
  { p with likes := p.likes ++ [uid], likesCount := p.likesCount + 1 }

/-- The document mutation of `postSchema.methods.unlike`:
`this.likes.splice(likeIndex, 1); this.likesCount--`. -/
def Post.unlikeDoc (p : Post) (uid : Nat) : Post :=
  { p with likes := removeFirst p.likes uid, likesCount := p.likesCount - 1 }

/-- `postSchema.methods.like`: mutate + save only when the user has no
existing like; returns the (possibly unchanged) document and the boolean
result of the method. -/
def Post.likeM (p : Post) (uid : Nat) : Post × Bool :=
  if p.isLikedBy uid then (p, false) else (p.likeDoc uid, true)

/-- `postSchema.methods.unlike`: mutate + save only when a like is found. -/
def Post.unlikeM (p : Post) (uid : Nat) : Post × Bool :=
  if p.isLikedBy uid then (p.unlikeDoc uid, true) else (p, false)

theorem likeDoc_id (p : Post) (uid : Nat) : (p.likeDoc uid).id = p.id := rfl

theorem unlike_likeDoc (p : Post) (uid : Nat) (h : uid ∉ p.likes) :
    (p.likeDoc uid).unlikeDoc uid = p := by
  cases p
  simp [Post.likeDoc, Post.unlikeDoc, removeFirst_append_self h]

/-- Result of the `toggleLike` controller: status, reported `isLiked` and
`likesCount`, and the posts collection afterwards. -/
structure LikeRes where
  status : Nat
  isLiked : Option Bool
  likesCount : Option Int
  posts : List Post
deriving DecidableEq, Repr

/-- `toggleLike` (src/controllers/postController.js): 404 when the post is
absent or inactive (same response in both cases), else branch on
`isLikedBy` and call `unlike`/`like`, reporting `!isLiked` and the
document's `likesCount` after the mutation. -/
def toggleLike (ps : List Post) (pid uid : Nat) : LikeRes :=
  match findPost ps pid with
  | none => ⟨404, none, none, ps⟩
  | some p =>
    if p.isActive = false then ⟨404, none, none, ps⟩
    else
      let isLiked := p.isLikedBy uid
      if isLiked then
        let p2 := (p.unlikeM uid).1
        ⟨200, some (!isLiked), some p2.likesCount, savePost ps p2⟩
      else
        let p2 := (p.likeM uid).1
        ⟨200, some (!isLiked), some p2.likesCount, savePost ps p2⟩

/-- State touched by `deletePost`: the posts and users collections. -/
structure PostSt where
  posts : List Post
  users : List User
deriving DecidableEq, Repr

/-- `deletePost` (src/controllers/postController.js): 404 only when the id is
absent (no `isActive` check), 403 when the requester is not the author, else
set `isActive = false`, save, and `$inc` the author's `postsCount` by `-1`. -/
def deletePost (st : PostSt) (pid uid : Nat) : Nat × PostSt :=
  match findPost st.posts pid with
  | none => (404, st)
  | some p =>
    if p.author ≠ uid then (403, st)
    else
      let st1 : PostSt := { st with posts := savePost st.posts ({ p with isActive := false }) }
      let dec : User → User := fun u => { u with postsCount := u.postsCount - 1 }
      (200, { st1 with users := updateKey User.id st1.users uid dec })

/-! ### C6 and C4 theorems -/

/-- C6: on an active post not yet liked by `U`, two consecutive `toggleLike`
calls report `isLiked = true` then `isLiked = false` and return the stored
post document — in particular its `likesCount` — exactly to its value before
the pair; and in the concrete scenario a post with `likesCount = 0` liked
once by each of three distinct accounts reaches `likesCount = 3`, after
which a repeat toggle by one of them brings it to `2`. -/
theorem toggleLike_pair (ps : List Post) (pid uid : Nat) (p : Post)
    (hfind : findPost ps pid = some p)
    (hact : p.isActive = true)
    (hnl : uid ∉ p.likes) :
    (toggleLike ps pid uid).status = 200 ∧
    (toggleLike ps pid uid).isLiked = some true ∧
    (toggleLike (toggleLike ps pid uid).posts pid uid).isLiked = some false ∧
    findPost (toggleLike (toggleLike ps pid uid).posts pid uid).posts pid = some p ∧
    ((findPost (toggleLike (toggleLike (toggleLike
        [⟨1, 9, [], 0, 0, 0, true⟩] 1 11).posts 1 12).posts 1 13).posts 1).map
        Post.likesCount = some 3 ∧
      (findPost (toggleLike (toggleLike (toggleLike (toggleLike
        [⟨1, 9, [], 0, 0, 0, true⟩] 1 11).posts 1 12).posts 1 13).posts 1 11).posts 1).map
        Post.likesCount = some 2) := by
  have hpid : p.id = pid := findKey_some hfind
  subst hpid
  have h1 : toggleLike ps p.id uid
      = ⟨200, some true, some (p.likeDoc uid).likesCount, savePost ps (p.likeDoc uid)⟩ := by
    simp [toggleLike, hfind, hact, Post.likeM, Post.isLikedBy, hnl]
  have hfind2 : findPost (savePost ps (p.likeDoc uid)) p.id = some (p.likeDoc uid) := by
    have hself := savePost_find_self ps (p.likeDoc uid)
    rw [likeDoc_id] at hself
    rw [hself, hfind]
    rfl
  have h2 : toggleLike (savePost ps (p.likeDoc uid)) p.id uid
      = ⟨200, some false, some p.likesCount, savePost (savePost ps (p.likeDoc uid)) p⟩ := by
    have hact2 : (p.likeDoc uid).isActive = true := hact
    have hmem2 : (p.likeDoc uid).isLikedBy uid = true := by
      simp [Post.isLikedBy, Post.likeDoc]
    simp [toggleLike, hfind2, hact2, hmem2, Post.unlikeM, unlike_likeDoc p uid hnl]
  refine ⟨by rw [h1], by rw [h1], ?_, ?_, by decide⟩
  · rw [h1]
    show (toggleLike (savePost ps (p.likeDoc uid)) p.id uid).isLiked = some false
    rw [h2]
  · rw [h1]
    show findPost (toggleLike (savePost ps (p.likeDoc uid)) p.id uid).posts p.id = some p
    rw [h2]
    show findPost (savePost (savePost ps (p.likeDoc uid)) p) p.id = some p
    rw [savePost_find_self, hfind2]
    rfl

/-- C6 witness: account 11 toggling twice on a concrete active post. -/
theorem toggleLike_pair_witness :
    (toggleLike [⟨1, 9, [], 0, 0, 0, true⟩] 1 11).status = 200 ∧
    (toggleLike [⟨1, 9, [], 0, 0, 0, true⟩] 1 11).isLiked = some true ∧
    (toggleLike (toggleLike [⟨1, 9, [], 0, 0, 0, true⟩] 1 11).posts 1 11).isLiked
      = some false ∧
    findPost (toggleLike (toggleLike [⟨1, 9, [], 0, 0, 0, true⟩] 1 11).posts 1 11).posts 1
      = some ⟨1, 9, [], 0, 0, 0, true⟩ ∧
    ((findPost (toggleLike (toggleLike (toggleLike
        [⟨1, 9, [], 0, 0, 0, true⟩] 1 11).posts 1 12).posts 1 13).posts 1).map
        Post.likesCount = some 3 ∧
      (findPost (toggleLike (toggleLike (toggleLike (toggleLike
        [⟨1, 9, [], 0, 0, 0, true⟩] 1 11).posts 1 12).posts 1 13).posts 1 11).posts 1).map
        Post.likesCount = some 2) :=
  toggleLike_pair [⟨1, 9, [], 0, 0, 0, true⟩] 1 11 ⟨1, 9, [], 0, 0, 0, true⟩
    (by decide) (by decide) (by decide)

/-- C4 counterexample: post 1 is already soft-deleted (`isActive = false`)
and its author (user 7, `postsCount = 3`) deletes it again.  The claim says
this fails with NotFound and leaves `postsCount` unchanged; the code returns
200 and decrements `postsCount` to 2, because `deletePost` checks only
absence, not the lifecycle predicate. -/
theorem deletePost_inactive_cex :
    (deletePost ⟨[⟨1, 7, [], 0, 0, 0, false⟩], [⟨7, "dave", [], [], 0, 0, 3, true⟩]⟩
      1 7).1 = 200 ∧
    (deletePost ⟨[⟨1, 7, [], 0, 0, 0, false⟩], [⟨7, "dave", [], [], 0, 0, 3, true⟩]⟩
      1 7).2.users = [⟨7, "dave", [], [], 0, 0, 2, true⟩] := by
  decide

/-- C4 amended: operations that apply the lifecycle predicate — `toggleLike`
here — return the identical 404 NotFound response whether the post id is
absent or the post is soft-deleted, so those two causes are
indistinguishable to the caller; but the delete operations check only
absence, so soft-deleting an already soft-deleted post by its author
succeeds with 200 and decrements the author's `postsCount` by 1 again. -/
theorem notFound_lifecycle_amended
    (psA : List Post) (pidA uidA : Nat)
    (psB : List Post) (pidB uidB : Nat) (pB : Post)
    (st : PostSt) (pidC uidC : Nat) (pC : Post)
    (hA : findPost psA pidA = none)
    (hB : findPost psB pidB = some pB) (hBa : pB.isActive = false)
    (hC : findPost st.posts pidC = some pC) (hCa : pC.isActive = false)
    (hCauth : pC.author = uidC) :
    toggleLike psA pidA uidA = ⟨404, none, none, psA⟩ ∧
    toggleLike psB pidB uidB = ⟨404, none, none, psB⟩ ∧
    (deletePost st pidC uidC).1 = 200 ∧
    findKey User.id (deletePost st pidC uidC).2.users uidC
      = (findKey User.id st.users uidC).map
          (fun u => { u with postsCount := u.postsCount - 1 }) := by
  refine ⟨?_, ?_, ?_, ?_⟩
  · unfold toggleLike
    rw [hA]
  · simp [toggleLike, hB, hBa]
  · simp [deletePost, hC, hCauth]
  · simp only [deletePost, hC, hCauth, ne_eq, not_true_eq_false, if_false]
    exact findKey_updateKey_same User.id _ uidC st.users (fun x hx => hx)

/-- C4 amended witness: an empty store (absent id), a store holding only a
soft-deleted post, and a re-delete of a soft-deleted post by its author. -/
theorem notFound_lifecycle_amended_witness :
    toggleLike [] 1 11 = ⟨404, none, none, []⟩ ∧
    toggleLike [⟨2, 7, [], 0, 0, 0, false⟩] 2 11
      = ⟨404, none, none, [⟨2, 7, [], 0, 0, 0, false⟩]⟩ ∧
    (deletePost ⟨[⟨1, 7, [], 0, 0, 0, false⟩], [⟨7, "dave", [], [], 0, 0, 3, true⟩]⟩
      1 7).1 = 200 ∧
    findKey User.id (deletePost ⟨[⟨1, 7, [], 0, 0, 0, false⟩],
        [⟨7, "dave", [], [], 0, 0, 3, true⟩]⟩ 1 7).2.users 7
      = (findKey User.id [⟨7, "dave", [], [], 0, 0, 3, true⟩] 7).map
          (fun u => { u with postsCount := u.postsCount - 1 }) :=
  notFound_lifecycle_amended [] 1 11 [⟨2, 7, [], 0, 0, 0, false⟩] 2 11
    ⟨2, 7, [], 0, 0, 0, false⟩
    ⟨[⟨1, 7, [], 0, 0, 0, false⟩], [⟨7, "dave", [], [], 0, 0, 3, true⟩]⟩ 1 7
    ⟨1, 7, [], 0, 0, 0, false⟩
    (by decide) (by decide) (by decide) (by decide) (by decide) (by decide)

/-! ## Comment  (src/models/Comment.js, src/controllers/commentController.js)

`likes` entries carry `{user, createdAt}`; only the user id matters.  The
`commentSchema.post('save')` hook fires after **every** `save()` of a
comment document — creation, like, unlike, edit, and the soft delete — and
unconditionally applies `$inc repliesCount 1` to the parent comment (when
`parentComment` is set) and `$inc commentsCount 1` to the post.  The
mirroring `post('remove')` hook decrements both, but no controller ever
calls `remove()`. -/

structure Comment where
  id : Nat
  post : Nat
  author : Nat
  content : String
  likes : List Nat
  likesCount : Int
  parentComment : Option Nat
  repliesCount : Int
  isActive : Bool
deriving DecidableEq, Repr

/-- State touched by the comment operations: comments and posts. -/
structure ComSt where
  comments : List Comment
  posts : List Post
deriving DecidableEq, Repr

def findComment (cs : List Comment) (cid : Nat) : Option Comment :=
  findKey Comment.id cs cid

/-- `$inc: { repliesCount: 1 }` on a comment document. -/
def incReplies : Comment → Comment :=
  fun x => { x with repliesCount := x.repliesCount + 1 }

/-- `$inc: { repliesCount: -1 }` on a comment document. -/
def decReplies : Comment → Comment :=
  fun x => { x with repliesCount := x.repliesCount - 1 }

/-- `$inc: { commentsCount: 1 }` on a post document. -/
def incComments : Post → Post :=
  fun x => { x with commentsCount := x.commentsCount + 1 }

/-- `$inc: { commentsCount: -1 }` on a post document. -/
def decComments : Post → Post :=
  fun x => { x with commentsCount := x.commentsCount - 1 }

/-- `commentSchema.post('save')`: `$inc repliesCount 1` on the parent (if
any), then `$inc commentsCount 1` on the post — on every save. -/
def commentSaveHook (c : Comment) (st : ComSt) : ComSt :=
  let st1 : ComSt :=
    match c.parentComment with
    | some pcid => { st with comments := updateKey Comment.id st.comments pcid incReplies }
    | none => st
  { st1 with posts := updateKey Post.id st1.posts c.post incComments }

/-- `commentSchema.post('remove')`: the decrementing mirror of the save
hook; defined by the model but never triggered by any controller, which
soft-delete through `save()`. -/
def commentRemoveHook (c : Comment) (st : ComSt) : ComSt :=
  let st1 : ComSt :=
    match c.parentComment with
    | some pcid => { st with comments := updateKey Comment.id st.comments pcid decReplies }
    | none => st
  { st1 with posts := updateKey Post.id st1.posts c.post decComments }

/-- `comment.save()`: persist the document, then run the post-save hook. -/
def saveComment (c : Comment) (st : ComSt) : ComSt :=
  commentSaveHook c { st with comments := updateKey Comment.id st.comments c.id (fun _ => c) }

/-- `commentSchema.methods.isLikedBy`. -/
def Comment.isLikedBy (c : Comment) (uid : Nat) : Bool := uid ∈ c.likes

/-- Document mutation of `commentSchema.methods.like`. -/
def Comment.likeDoc (c : Comment) (uid : Nat) : Comment :=
  { c with likes := c.likes ++ [uid], likesCount := c.likesCount + 1 }

/-- Document mutation of `commentSchema.methods.unlike`. -/
def Comment.unlikeDoc (c : Comment) (uid : Nat) : Comment :=
  { c with likes := removeFirst c.likes uid, likesCount := c.likesCount - 1 }

/-- `commentSchema.methods.like`: mutate + save only when no existing like. -/
def Comment.likeM (c : Comment) (uid : Nat) : Comment × Bool :=
  if c.isLikedBy uid then (c, false) else (c.likeDoc uid, true)

/-- `commentSchema.methods.unlike`: mutate + save only when a like exists. -/
def Comment.unlikeM (c : Comment) (uid : Nat) : Comment × Bool :=
  if c.isLikedBy uid then (c.unlikeDoc uid, true) else (c, false)

/-- Result of `toggleCommentLike`. -/
structure ComRes where
  status : Nat
  isLiked : Option Bool
  likesCount : Option Int
  st : ComSt
deriving DecidableEq, Repr

/-- `toggleCommentLike`: 404 when absent or inactive, else branch on
`isLikedBy` and call `unlike`/`like`; either branch saves the comment and
therefore fires the post-save hook. -/
def toggleCommentLike (st : ComSt) (cid uid : Nat) : ComRes :=
  match findComment st.comments cid with
  | none => ⟨404, none, none, st⟩
  | some c =>
    if c.isActive = false then ⟨404, none, none, st⟩
    else
      let isLiked := c.isLikedBy uid
      if isLiked then
        let c2 := (c.unlikeM uid).1
        ⟨200, some (!isLiked), some c2.likesCount, saveComment c2 st⟩
      else
        let c2 := (c.likeM uid).1
        ⟨200, some (!isLiked), some c2.likesCount, saveComment c2 st⟩

/-- `deleteComment`: 404 only when the id is absent (no `isActive` check),
403 when the requester is not the author, else `isActive = false` and
`save()` — which fires the incrementing post-save hook. -/
def deleteComment (st : ComSt) (cid uid : Nat) : Nat × ComSt :=
  match findComment st.comments cid with
  | none => (404, st)
  | some c =>
    if c.author ≠ uid then (403, st)
    else (200, saveComment ({ c with isActive := false }) st)

/-- `updateComment`: 400 on empty content, 404 when absent or inactive, 403
when not the author, else set content and `save()`. -/
def updateComment (st : ComSt) (cid uid : Nat) (content : String) : Nat × ComSt :=
  if content = "" then (400, st)
  else
    match findComment st.comments cid with
    | none => (404, st)
    | some c =>
      if c.isActive = false then (404, st)
      else if c.author ≠ uid then (403, st)
      else (200, saveComment ({ c with content := content }) st)

/-- The main query of `getPostComments`: top-level (`parentComment: null`)
active comments of the post. -/
def getPostCommentsList (st : ComSt) (postId : Nat) : List Comment :=
  st.comments.filter (fun c =>
    decide (c.post = postId) && decide (c.parentComment = none) && c.isActive)

/-! ### C3, C1 and C9 theorems -/

theorem saveComment_posts (c : Comment) (st : ComSt) :
    (saveComment c st).posts = updateKey Post.id st.posts c.post incComments := by
  unfold saveComment commentSaveHook
  cases c.parentComment <;> rfl

theorem saveComment_comments_parent (c : Comment) (st : ComSt) (pcid : Nat)
    (hpc : c.parentComment = some pcid) :
    (saveComment c st).comments
      = updateKey Comment.id (updateKey Comment.id st.comments c.id (fun _ => c))
          pcid incReplies := by
  unfold saveComment commentSaveHook
  rw [hpc]

/-- Net effect of one `comment.save()` on the two mirrored counters: the
post named by the saved comment gains `+1 commentsCount` and, when the
comment is a reply to a different comment, the parent gains
`+1 repliesCount`. -/
theorem saveComment_counter_effects (st : ComSt) (c2 : Comment) (p : Post)
    (pcid : Nat) (pc : Comment)
    (hp : findPost st.posts c2.post = some p)
    (hpc : c2.parentComment = some pcid)
    (hne : pcid ≠ c2.id)
    (hpcfind : findComment st.comments pcid = some pc) :
    findPost (saveComment c2 st).posts c2.post = some (incComments p) ∧
    findComment (saveComment c2 st).comments pcid = some (incReplies pc) := by
  constructor
  · rw [saveComment_posts]
    have h1 := findKey_updateKey_same Post.id incComments c2.post st.posts
      (fun x hx => hx)
    show findKey Post.id (updateKey Post.id st.posts c2.post incComments) c2.post
      = some (incComments p)
    rw [h1]
    show (findPost st.posts c2.post).map incComments = some (incComments p)
    rw [hp]
    rfl
  · rw [saveComment_comments_parent c2 st pcid hpc]
    have h1 := findKey_updateKey_same Comment.id incReplies pcid
      (updateKey Comment.id st.comments c2.id (fun _ => c2)) (fun x hx => hx)
    show findKey Comment.id (updateKey Comment.id
        (updateKey Comment.id st.comments c2.id (fun _ => c2)) pcid incReplies) pcid
      = some (incReplies pc)
    rw [h1]
    have h2 := findKey_updateKey_ne Comment.id (fun _ => c2) st.comments hne
      (fun _ _ => rfl)
    rw [h2]
    show (findComment st.comments pcid).map incReplies = some (incReplies pc)
    rw [hpcfind]
    rfl

/-- C3: every operation that re-saves an existing comment — both branches of
`toggleCommentLike`, `updateComment`, and the soft delete of
`deleteComment` — fires the post-save hook and thereby increments the post's
`commentsCount` by 1 and, for a reply, the parent comment's `repliesCount`
by 1. -/
theorem comment_resave_increments (st : ComSt) (cid uid uid2 : Nat)
    (content : String) (c : Comment) (p : Post) (pcid : Nat) (pc : Comment)
    (hc : findComment st.comments cid = some c)
    (hact : c.isActive = true)
    (hauth : c.author = uid)
    (hcontent : content ≠ "")
    (hp : findPost st.posts c.post = some p)
    (hpc : c.parentComment = some pcid)
    (hpcne : pcid ≠ cid)
    (hpcfind : findComment st.comments pcid = some pc) :
    (findPost (toggleCommentLike st cid uid2).st.posts c.post = some (incComments p) ∧
      findComment (toggleCommentLike st cid uid2).st.comments pcid = some (incReplies pc)) ∧
    (findPost (updateComment st cid uid content).2.posts c.post = some (incComments p) ∧
      findComment (updateComment st cid uid content).2.comments pcid = some (incReplies pc)) ∧
    (findPost (deleteComment st cid uid).2.posts c.post = some (incComments p) ∧
      findComment (deleteComment st cid uid).2.comments pcid = some (incReplies pc)) := by
  have hcid : c.id = cid := findKey_some hc
  subst hcid
  refine ⟨?_, ?_, ?_⟩
  · by_cases hl : c.isLikedBy uid2 = true
    · have hst : (toggleCommentLike st c.id uid2).st = saveComment (c.unlikeDoc uid2) st := by
        simp [toggleCommentLike, hc, hact, hl, Comment.unlikeM]
      rw [hst]
      exact saveComment_counter_effects st (c.unlikeDoc uid2) p pcid pc hp hpc hpcne hpcfind
    · have hst : (toggleCommentLike st c.id uid2).st = saveComment (c.likeDoc uid2) st := by
        simp [toggleCommentLike, hc, hact, hl, Comment.likeM]
      rw [hst]
      exact saveComment_counter_effects st (c.likeDoc uid2) p pcid pc hp hpc hpcne hpcfind
  · have hst : (updateComment st c.id uid content).2
        = saveComment ({ c with content := content }) st := by
      simp [updateComment, hc, hact, hauth, hcontent]
    rw [hst]
    exact saveComment_counter_effects st ({ c with content := content }) p pcid pc
      hp hpc hpcne hpcfind
  · have hst : (deleteComment st c.id uid).2
        = saveComment ({ c with isActive := false }) st := by
      simp [deleteComment, hc, hauth]
    rw [hst]
    exact saveComment_counter_effects st ({ c with isActive := false }) p pcid pc
      hp hpc hpcne hpcfind

/-- C3 witness: a reply (comment 11, parent 10) on post 1 is re-saved by a
like toggle, an edit and a soft delete; each single operation bumps
`commentsCount` 2 → 3 and the parent's `repliesCount` 1 → 2. -/
theorem comment_resave_increments_witness :
    (findPost (toggleCommentLike ⟨[⟨10, 1, 7, "top", [], 0, none, 1, true⟩,
        ⟨11, 1, 8, "reply", [], 0, some 10, 0, true⟩], [⟨1, 7, [], 0, 2, 0, true⟩]⟩
        11 12).st.posts 1 = some (incComments ⟨1, 7, [], 0, 2, 0, true⟩) ∧
      findComment (toggleCommentLike ⟨[⟨10, 1, 7, "top", [], 0, none, 1, true⟩,
        ⟨11, 1, 8, "reply", [], 0, some 10, 0, true⟩], [⟨1, 7, [], 0, 2, 0, true⟩]⟩
        11 12).st.comments 10
        = some (incReplies ⟨10, 1, 7, "top", [], 0, none, 1, true⟩)) ∧
    (findPost (updateComment ⟨[⟨10, 1, 7, "top", [], 0, none, 1, true⟩,
        ⟨11, 1, 8, "reply", [], 0, some 10, 0, true⟩], [⟨1, 7, [], 0, 2, 0, true⟩]⟩
        11 8 "edited").2.posts 1 = some (incComments ⟨1, 7, [], 0, 2, 0, true⟩) ∧
      findComment (updateComment ⟨[⟨10, 1, 7, "top", [], 0, none, 1, true⟩,
        ⟨11, 1, 8, "reply", [], 0, some 10, 0, true⟩], [⟨1, 7, [], 0, 2, 0, true⟩]⟩
        11 8 "edited").2.comments 10
        = some (incReplies ⟨10, 1, 7, "top", [], 0, none, 1, true⟩)) ∧
    (findPost (deleteComment ⟨[⟨10, 1, 7, "top", [], 0, none, 1, true⟩,
        ⟨11, 1, 8, "reply", [], 0, some 10, 0, true⟩], [⟨1, 7, [], 0, 2, 0, true⟩]⟩
        11 8).2.posts 1 = some (incComments ⟨1, 7, [], 0, 2, 0, true⟩) ∧
      findComment (deleteComment ⟨[⟨10, 1, 7, "top", [], 0, none, 1, true⟩,
        ⟨11, 1, 8, "reply", [], 0, some 10, 0, true⟩], [⟨1, 7, [], 0, 2, 0, true⟩]⟩
        11 8).2.comments 10
        = some (incReplies ⟨10, 1, 7, "top", [], 0, none, 1, true⟩)) :=
  comment_resave_increments
    ⟨[⟨10, 1, 7, "top", [], 0, none, 1, true⟩,
      ⟨11, 1, 8, "reply", [], 0, some 10, 0, true⟩], [⟨1, 7, [], 0, 2, 0, true⟩]⟩
    11 8 12 "edited" ⟨11, 1, 8, "reply", [], 0, some 10, 0, true⟩
    ⟨1, 7, [], 0, 2, 0, true⟩ 10 ⟨10, 1, 7, "top", [], 0, none, 1, true⟩
    (by decide) (by decide) (by decide) (by decide) (by decide) (by decide)
    (by decide) (by decide)

/-- C1: evaluation at the failing input.  Post 1 has `commentsCount = 2`; its
top-level comment 10 has `repliesCount = 1`; reply 11 (parent 10) is
soft-deleted by its author.  The soft delete goes through `save()`, so the
incrementing post-save hook fires: `commentsCount` becomes 3 (the claim says
1) and the parent's `repliesCount` becomes 2 (the claim says 0); the
decrementing `post('remove')` hook, evaluated at the same input, would
produce exactly the claimed 1 and 0, but no controller ever triggers it.
The top-level comment listing never contained the reply and the deleted
reply is indeed absent from it. -/
theorem deleteComment_increments_counters :
    (deleteComment ⟨[⟨10, 1, 7, "top", [], 0, none, 1, true⟩,
        ⟨11, 1, 8, "reply", [], 0, some 10, 0, true⟩],
        [⟨1, 7, [], 0, 2, 0, true⟩]⟩ 11 8).1 = 200 ∧
    (findPost (deleteComment ⟨[⟨10, 1, 7, "top", [], 0, none, 1, true⟩,
        ⟨11, 1, 8, "reply", [], 0, some 10, 0, true⟩],
        [⟨1, 7, [], 0, 2, 0, true⟩]⟩ 11 8).2.posts 1).map Post.commentsCount
      = some 3 ∧
    (findComment (deleteComment ⟨[⟨10, 1, 7, "top", [], 0, none, 1, true⟩,
        ⟨11, 1, 8, "reply", [], 0, some 10, 0, true⟩],
        [⟨1, 7, [], 0, 2, 0, true⟩]⟩ 11 8).2.comments 10).map Comment.repliesCount
      = some 2 ∧
    (findPost (commentRemoveHook ⟨11, 1, 8, "reply", [], 0, some 10, 0, true⟩
        ⟨[⟨10, 1, 7, "top", [], 0, none, 1, true⟩,
          ⟨11, 1, 8, "reply", [], 0, some 10, 0, true⟩],
          [⟨1, 7, [], 0, 2, 0, true⟩]⟩).posts 1).map Post.commentsCount
      = some 1 ∧
    (findComment (commentRemoveHook ⟨11, 1, 8, "reply", [], 0, some 10, 0, true⟩
        ⟨[⟨10, 1, 7, "top", [], 0, none, 1, true⟩,
          ⟨11, 1, 8, "reply", [], 0, some 10, 0, true⟩],
          [⟨1, 7, [], 0, 2, 0, true⟩]⟩).comments 10).map Comment.repliesCount
      = some 0 ∧
    (getPostCommentsList (deleteComment ⟨[⟨10, 1, 7, "top", [], 0, none, 1, true⟩,
        ⟨11, 1, 8, "reply", [], 0, some 10, 0, true⟩],
        [⟨1, 7, [], 0, 2, 0, true⟩]⟩ 11 8).2 1).map Comment.id = [10] := by
  decide

/-- C9: the like/unlike methods of both Post and Comment preserve the
invariant `likesCount == |likes|`: like pushes exactly one entry and
increments by 1 only when the actor was absent, unlike removes exactly one
entry and decrements by 1 only when the actor was present, and neither
mutates anything otherwise. -/
theorem likesCount_matches_likes (p : Post) (c : Comment) (uid : Nat)
    (hp : p.likesCount = (p.likes.length : Int))
    (hc : c.likesCount = (c.likes.length : Int)) :
    (p.likeM uid).1.likesCount = (((p.likeM uid).1.likes.length : Nat) : Int) ∧
    (p.unlikeM uid).1.likesCount = (((p.unlikeM uid).1.likes.length : Nat) : Int) ∧
    (c.likeM uid).1.likesCount = (((c.likeM uid).1.likes.length : Nat) : Int) ∧
    (c.unlikeM uid).1.likesCount = (((c.unlikeM uid).1.likes.length : Nat) : Int) := by
  refine ⟨?_, ?_, ?_, ?_⟩
  · by_cases hl : uid ∈ p.likes
    · simpa [Post.likeM, Post.isLikedBy, hl] using hp
    · simp [Post.likeM, Post.isLikedBy, hl, Post.likeDoc, hp]
  · by_cases hl : uid ∈ p.likes
    · have hlen := removeFirst_length hl
      simp [Post.unlikeM, Post.isLikedBy, hl, Post.unlikeDoc, hp]
      omega
    · simpa [Post.unlikeM, Post.isLikedBy, hl] using hp
  · by_cases hl : uid ∈ c.likes
    · simpa [Comment.likeM, Comment.isLikedBy, hl] using hc
    · simp [Comment.likeM, Comment.isLikedBy, hl, Comment.likeDoc, hc]
  · by_cases hl : uid ∈ c.likes
    · have hlen := removeFirst_length hl
      simp [Comment.unlikeM, Comment.isLikedBy, hl, Comment.unlikeDoc, hc]
      omega
    · simpa [Comment.unlikeM, Comment.isLikedBy, hl] using hc

/-- C9 witness: a post with one like and a comment with one like, both
satisfying the invariant, keep satisfying it after each method. -/
theorem likesCount_matches_likes_witness :
    (Post.likeM ⟨1, 9, [4], 1, 0, 0, true⟩ 4).1.likesCount
      = (((Post.likeM ⟨1, 9, [4], 1, 0, 0, true⟩ 4).1.likes.length : Nat) : Int) ∧
    (Post.unlikeM ⟨1, 9, [4], 1, 0, 0, true⟩ 4).1.likesCount
      = (((Post.unlikeM ⟨1, 9, [4], 1, 0, 0, true⟩ 4).1.likes.length : Nat) : Int) ∧
    (Comment.likeM ⟨10, 1, 7, "top", [4], 1, none, 0, true⟩ 4).1.likesCount
      = (((Comment.likeM ⟨10, 1, 7, "top", [4], 1, none, 0, true⟩ 4).1.likes.length
          : Nat) : Int) ∧
    (Comment.unlikeM ⟨10, 1, 7, "top", [4], 1, none, 0, true⟩ 4).1.likesCount
      = (((Comment.unlikeM ⟨10, 1, 7, "top", [4], 1, none, 0, true⟩ 4).1.likes.length
          : Nat) : Int) :=
  likesCount_matches_likes ⟨1, 9, [4], 1, 0, 0, true⟩
    ⟨10, 1, 7, "top", [4], 1, none, 0, true⟩ 4 (by decide) (by decide)

/-! ## Story  (src/models/Story.js, story controllers in
src/controllers/commentController.js)

`views` entries carry `{user, viewedAt}`; only the user id matters.
`expiresAt` is an absolute timestamp (24h after creation).  The story cache
(`storyCache`) holds the stories-feed response per requesting user; the key
`stories_feed:<uid>` is embedded as the uid.  Cache flushes performed by the
write paths are not needed by the verified properties and are omitted. -/

structure Story where
  id : Nat
  author : Nat
  views : List Nat
  viewsCount : Int
  isActive : Bool
  expiresAt : Nat
deriving DecidableEq, Repr

def findStory (ss : List Story) (sid : Nat) : Option Story :=
  findKey Story.id ss sid

def saveStory (ss : List Story) (s : Story) : List Story :=
  updateKey Story.id ss s.id (fun _ => s)

theorem saveStory_find_self (ss : List Story) (s : Story) :
    findStory (saveStory ss s) s.id = (findStory ss s.id).map (fun _ => s) :=
  findKey_updateKey_same Story.id (fun _ => s) s.id ss (fun _ _ => rfl)

/-- `storySchema.methods.isViewedBy`. -/
def Story.isViewedBy (s : Story) (uid : Nat) : Bool := uid ∈ s.views

/-- Document mutation of `storySchema.methods.addView`:
`this.views.push({user: userId}); this.viewsCount++`. -/
def Story.addViewDoc (s : Story) (uid : Nat) : Story :=
  { s with views := s.views ++ [uid], viewsCount := s.viewsCount + 1 }

/-- `storySchema.methods.addView`: mutate + save and return `true` only when
the viewer is absent; otherwise no mutation and `false`. -/
def Story.addView (s : Story) (uid : Nat) : Story × Bool :=
  if s.isViewedBy uid then (s, false) else (s.addViewDoc uid, true)

theorem addViewDoc_id (s : Story) (uid : Nat) : (s.addViewDoc uid).id = s.id := rfl

/-- Result of the `viewStory` controller. -/
structure ViewRes where
  status : Nat
  isNewView : Option Bool
  viewsCount : Option Int
  stories : List Story
deriving DecidableEq, Repr

/-- `viewStory`: 404 when absent or inactive, 410 when
`story.expiresAt <= now`, else `addView` (which saves only on a new view)
and report the document's `viewsCount`. -/
def viewStory (ss : List Story) (now sid uid : Nat) : ViewRes :=
  match findStory ss sid with
  | none => ⟨404, none, none, ss⟩
  | some s =>
    if s.isActive = false then ⟨404, none, none, ss⟩
    else if s.expiresAt ≤ now then ⟨410, none, none, ss⟩
    else
      let r := s.addView uid
      ⟨200, some r.2, some r.1.viewsCount, if r.2 then saveStory ss r.1 else ss⟩

/-- The `$match` stage of the `getStoriesFeed` aggregation:
`author ∈ followingIds`, `isActive: true`, `expiresAt > now`.  The later
`$lookup` / `$group` / `$sort` stages only regroup the matched stories by
author and never add a story, so the matched list is the set of stories the
feed can return. -/
def storiesFeedMatch (ss : List Story) (now : Nat) (followingIds : List Nat) :
    List Story :=
  ss.filter (fun s =>
    decide (s.author ∈ followingIds) && s.isActive && decide (now < s.expiresAt))

/-- `getMyStories`: an uncached durable read filtered by
`author`, `isActive: true` and `expiresAt > now`. -/
def getMyStories (ss : List Story) (now uid : Nat) : List Story :=
  ss.filter (fun s =>
    decide (s.author = uid) && s.isActive && decide (now < s.expiresAt))

/-- `getStoriesFeed`: return the cached feed verbatim on a cache hit
(`stories_feed:<uid>`, embedded as key `uid`); on a miss, compute the feed
over `[...following, uid]` and cache it for 600 seconds. -/
def getStoriesFeed (cache : Cache Nat (List Story)) (now : Nat) (ss : List Story)
    (uid : Nat) (following : List Nat) : List Story × Cache Nat (List Story) :=
  match cacheGet now cache uid with
  | some v => (v, cache)
  | none =>
    let feed := storiesFeedMatch ss now (following ++ [uid])
    (feed, cacheSet now 600 cache uid feed)

/-! ### C2 and C7 theorems -/

/-- C2 counterexample: story 1 expires at time 10.  At time 5 user 3 (who
follows the author, user 2) reads the feed, which caches `[story 1]` with a
600-second TTL.  At time 20 — after the story's expiry but well within the
cache entry's TTL — the feed still returns story 1, so an expired story is
served, contradicting the claim that no listing read returns it. -/
theorem getStoriesFeed_serves_expired_cex :
    (getStoriesFeed (getStoriesFeed Cache.empty 5 [⟨1, 2, [], 0, true, 10⟩]
        3 [2]).2 20 [⟨1, 2, [], 0, true, 10⟩] 3 [2]).1
      = [⟨1, 2, [], 0, true, 10⟩] ∧
    (⟨1, 2, [], 0, true, 10⟩ : Story).expiresAt < 20 := by
  decide

/-- C2 amended: the stories feed computed from the durable store (the cache
miss path) and the per-user story listing exclude every inactive or expired
story; but a stories-feed cache entry written before a story's expiry is
served verbatim until its own TTL elapses, so a cache hit may still return
a story whose `expiresAt` has passed. -/
theorem stories_listing_expiry_amended (ss : List Story) (now uid : Nat)
    (fl : List Nat) (cache : Cache Nat (List Story)) (s : Story) :
    (s ∈ storiesFeedMatch ss now fl → s.isActive = true ∧ now < s.expiresAt) ∧
    (s ∈ getMyStories ss now uid → s.isActive = true ∧ now < s.expiresAt) ∧
    (cacheGet now cache uid = none →
      (getStoriesFeed cache now ss uid fl).1
        = storiesFeedMatch ss now (fl ++ [uid])) := by
  refine ⟨?_, ?_, ?_⟩
  · intro hmem
    have h2 := (List.mem_filter.mp hmem).2
    simp at h2
    exact ⟨h2.1.2, h2.2⟩
  · intro hmem
    have h2 := (List.mem_filter.mp hmem).2
    simp at h2
    exact ⟨h2.1.2, h2.2⟩
  · intro hmiss
    unfold getStoriesFeed
    rw [hmiss]

/-- C2 amended witness: an active unexpired story appears in both listings
at time 5 and indeed satisfies the exclusion predicates; an empty cache
takes the miss path. -/
theorem stories_listing_expiry_amended_witness :
    ((⟨1, 2, [], 0, true, 10⟩ : Story).isActive = true ∧ (5 : Nat) < 10) ∧
    ((⟨1, 2, [], 0, true, 10⟩ : Story).isActive = true ∧ (5 : Nat) < 10) ∧
    (getStoriesFeed Cache.empty 5 [⟨1, 2, [], 0, true, 10⟩] 2 [4]).1
      = storiesFeedMatch [⟨1, 2, [], 0, true, 10⟩] 5 ([4] ++ [2]) :=
  ⟨(stories_listing_expiry_amended [⟨1, 2, [], 0, true, 10⟩] 5 2 [2]
      Cache.empty ⟨1, 2, [], 0, true, 10⟩).1 (by decide),
   (stories_listing_expiry_amended [⟨1, 2, [], 0, true, 10⟩] 5 2 [2]
      Cache.empty ⟨1, 2, [], 0, true, 10⟩).2.1 (by decide),
   (stories_listing_expiry_amended [⟨1, 2, [], 0, true, 10⟩] 5 2 [4]
      Cache.empty ⟨1, 2, [], 0, true, 10⟩).2.2 rfl⟩

/-- C7: on an active, unexpired story not yet viewed by `U`, the first
`viewStory` reports `isNewView = true`, appends `U` to the views and
increments `viewsCount` by exactly 1; any later call by the same viewer
while the story is unexpired reports `isNewView = false` and returns the
identical response with the store exactly unchanged, so `viewsCount` rises
by exactly 1 in total however many times it is called. -/
theorem viewStory_once (ss : List Story) (now now2 sid uid : Nat) (s : Story)
    (hfind : findStory ss sid = some s)
    (hact : s.isActive = true)
    (hexp : now < s.expiresAt)
    (hexp2 : now2 < s.expiresAt)
    (hnv : uid ∉ s.views) :
    (viewStory ss now sid uid).status = 200 ∧
    (viewStory ss now sid uid).isNewView = some true ∧
    (viewStory ss now sid uid).viewsCount = some (s.viewsCount + 1) ∧
    findStory (viewStory ss now sid uid).stories sid = some (s.addViewDoc uid) ∧
    viewStory (viewStory ss now sid uid).stories now2 sid uid
      = ⟨200, some false, some (s.viewsCount + 1),
          (viewStory ss now sid uid).stories⟩ := by
  have hsid : s.id = sid := findKey_some hfind
  subst hsid
  have hle : ¬ (s.expiresAt ≤ now) := not_le.mpr hexp
  have h1 : viewStory ss now s.id uid
      = ⟨200, some true, some (s.viewsCount + 1), saveStory ss (s.addViewDoc uid)⟩ := by
    simp [viewStory, hfind, hact, hle, Story.addView, Story.isViewedBy, hnv,
      Story.addViewDoc]
  have hfind2 : findStory (saveStory ss (s.addViewDoc uid)) s.id
      = some (s.addViewDoc uid) := by
    have hself := saveStory_find_self ss (s.addViewDoc uid)
    rw [addViewDoc_id] at hself
    rw [hself, hfind]
    rfl
  have hact2 : (s.addViewDoc uid).isActive = true := hact
  have hle2 : ¬ ((s.addViewDoc uid).expiresAt ≤ now2) := not_le.mpr hexp2
  have hmem2 : (s.addViewDoc uid).isViewedBy uid = true := by
    simp [Story.isViewedBy, Story.addViewDoc]
  have hvc : (s.addViewDoc uid).viewsCount = s.viewsCount + 1 := rfl
  have h2 : viewStory (saveStory ss (s.addViewDoc uid)) now2 s.id uid
      = ⟨200, some false, some (s.viewsCount + 1), saveStory ss (s.addViewDoc uid)⟩ := by
    simp [viewStory, hfind2, hact2, hle2, Story.addView, hmem2, hvc]
  refine ⟨by rw [h1], by rw [h1], by rw [h1], ?_, ?_⟩
  · rw [h1]
    exact hfind2
  · rw [h1]
    exact h2

/-- C7 witness: viewer 4 on a concrete active story with expiry 100, viewed
at times 5 and then 6. -/
theorem viewStory_once_witness :
    (viewStory [⟨1, 2, [], 0, true, 100⟩] 5 1 4).status = 200 ∧
    (viewStory [⟨1, 2, [], 0, true, 100⟩] 5 1 4).isNewView = some true ∧
    (viewStory [⟨1, 2, [], 0, true, 100⟩] 5 1 4).viewsCount = some 1 ∧
    findStory (viewStory [⟨1, 2, [], 0, true, 100⟩] 5 1 4).stories 1
      = some (Story.addViewDoc ⟨1, 2, [], 0, true, 100⟩ 4) ∧
    viewStory (viewStory [⟨1, 2, [], 0, true, 100⟩] 5 1 4).stories 6 1 4
      = ⟨200, some false, some 1, (viewStory [⟨1, 2, [], 0, true, 100⟩] 5 1 4).stories⟩ :=
  viewStory_once [⟨1, 2, [], 0, true, 100⟩] 5 6 1 4 ⟨1, 2, [], 0, true, 100⟩
    (by decide) (by decide) (by decide) (by decide) (by decide)

/-! ## Service  (serviceSchema in src/models/Story.js,
`addServiceReview` in src/controllers/adController.js)

The review's `createdAt` is omitted.  Ratings are embedded as `Int` and the
recomputed `rating.average` — a JavaScript float division
`totalRating / reviews.length` — as exact `Rat` division. -/

structure Review where
  user : Nat
  rating : Int
  comment : String
deriving DecidableEq, Repr

structure SRating where
  average : Rat
  count : Int
  reviews : List Review
deriving DecidableEq, Repr

structure Service where
  id : Nat
  provider : Nat
  rating : SRating
  isActive : Bool
deriving DecidableEq, Repr

def findService (ss : List Service) (sid : Nat) : Option Service :=
  findKey Service.id ss sid

def saveService (ss : List Service) (s : Service) : List Service :=
  updateKey Service.id ss s.id (fun _ => s)

theorem saveService_find_self (ss : List Service) (s : Service) :
    findService (saveService ss s) s.id = (findService ss s.id).map (fun _ => s) :=
  findKey_updateKey_same Service.id (fun _ => s) s.id ss (fun _ _ => rfl)

/-- The document mutation of `serviceSchema.methods.addReview`: push the
review, then recompute `average = totalRating / reviews.length` and
`count = reviews.length` from scratch. -/
def Service.withReview (s : Service) (uid : Nat) (rating : Int) (comment : String) :
    Service :=
  let revs := s.rating.reviews ++ [⟨uid, rating, comment⟩]
  let total : Int := (revs.map Review.rating).sum
  { s with rating := ⟨(total : Rat) / (revs.length : Rat), (revs.length : Int), revs⟩ }

/-- `serviceSchema.methods.addReview`: refuse (`none`, the method's `false`)
when the user already has a review — leaving the document untouched —
otherwise apply the mutation and return the updated document (`true`). -/
def Service.addReview (s : Service) (uid : Nat) (rating : Int) (comment : String) :
    Option Service :=
  if s.rating.reviews.any (fun rv => decide (rv.user = uid)) then none
  else some (s.withReview uid rating comment)

/-- Result of the `addServiceReview` controller: status, response message,
and the services collection afterwards. -/
structure ReviewRes where
  status : Nat
  message : String
  services : List Service
deriving DecidableEq, Repr

/-- `addServiceReview`: 400 for a rating outside `[1,5]`, 404 when the
service is absent or inactive, 400 for a provider reviewing the own service,
400 with the dedicated already-reviewed message (the spec's `Conflict`) when
`addReview` refuses, else 201 and save. -/
def addServiceReview (ss : List Service) (sid uid : Nat) (rating : Int)
    (comment : String) : ReviewRes :=
  if rating < 1 ∨ 5 < rating then ⟨400, "Rating must be between 1 and 5", ss⟩
  else
    match findService ss sid with
    | none => ⟨404, "Service not found", ss⟩
    | some s =>
      if s.isActive = false then ⟨404, "Service not found", ss⟩
      else if s.provider = uid then ⟨400, "You cannot review your own service", ss⟩
      else
        match s.addReview uid rating comment with
        | none => ⟨400, "You have already reviewed this service", ss⟩
        | some s2 => ⟨201, "Review added successfully", saveService ss s2⟩

/-! ### C8 theorem -/

theorem withReview_id (s : Service) (uid : Nat) (rating : Int) (cm : String) :
    (s.withReview uid rating cm).id = s.id := rfl

/-- C8: a review on an active service from an account that already reviewed
it is rejected through the dedicated already-reviewed branch (the spec's
`Conflict`) with the collection — hence `rating.average`, `rating.count` and
the reviews list — exactly unchanged, so at most one review per
(Service, Account) pair can ever be stored; an accepted review from a fresh
account leaves `rating.count` equal to the number of reviews and
`rating.average` equal to the mean of all review ratings. -/
theorem addServiceReview_conflict_and_mean (ss : List Service) (sid uid uid2 : Nat)
    (rating rating2 : Int) (cm cm2 : String) (s : Service)
    (hfind : findService ss sid = some s)
    (hact : s.isActive = true)
    (hr1 : 1 ≤ rating) (hr5 : rating ≤ 5)
    (hprov : s.provider ≠ uid)
    (hdup : ∃ rv ∈ s.rating.reviews, rv.user = uid)
    (hr21 : 1 ≤ rating2) (hr25 : rating2 ≤ 5)
    (hprov2 : s.provider ≠ uid2)
    (hnew : ∀ rv ∈ s.rating.reviews, rv.user ≠ uid2) :
    addServiceReview ss sid uid rating cm
      = ⟨400, "You have already reviewed this service", ss⟩ ∧
    (addServiceReview ss sid uid2 rating2 cm2).status = 201 ∧
    ∃ s2, findService (addServiceReview ss sid uid2 rating2 cm2).services sid
        = some s2 ∧
      s2.rating.count = (s2.rating.reviews.length : Int) ∧
      s2.rating.average = (((s2.rating.reviews.map Review.rating).sum : Int) : Rat)
        / (s2.rating.reviews.length : Rat) := by
  have hsid : s.id = sid := findKey_some hfind
  subst hsid
  have hb : ¬ (rating < 1 ∨ 5 < rating) := by omega
  have hb2 : ¬ (rating2 < 1 ∨ 5 < rating2) := by omega
  have hany : (s.rating.reviews.any (fun rv => decide (rv.user = uid))) = true := by
    rw [List.any_eq_true]
    obtain ⟨rv, hm, he⟩ := hdup
    exact ⟨rv, hm, by simp [he]⟩
  have hany2 : (s.rating.reviews.any (fun rv => decide (rv.user = uid2))) = false := by
    rw [Bool.eq_false_iff]
    intro hcontra
    rw [List.any_eq_true] at hcontra
    obtain ⟨rv, hm, he⟩ := hcontra
    exact hnew rv hm (by simpa using he)
  refine ⟨?_, ?_, ?_⟩
  · simp [addServiceReview, hb, hfind, hact, hprov, Service.addReview, hany]
  · simp [addServiceReview, hb2, hfind, hact, hprov2, Service.addReview, hany2]
  · refine ⟨s.withReview uid2 rating2 cm2, ?_, rfl, rfl⟩
    have hres : addServiceReview ss s.id uid2 rating2 cm2
        = ⟨201, "Review added successfully",
            saveService ss (s.withReview uid2 rating2 cm2)⟩ := by
      simp [addServiceReview, hb2, hfind, hact, hprov2, Service.addReview, hany2]
    rw [hres]
    have hself := saveService_find_self ss (s.withReview uid2 rating2 cm2)
    rw [withReview_id] at hself
    show findService (saveService ss (s.withReview uid2 rating2 cm2)) s.id
      = some (s.withReview uid2 rating2 cm2)
    rw [hself, hfind]
    rfl

/-- C8 witness: service 1 (provider 9) holds reviews with ratings 4 and 5
from users 4 and 5 (`average = 9/2`, `count = 2`); user 4 attempting a
second review is rejected with the collection unchanged, and a fresh review
by user 6 keeps `count = |reviews|` and `average = mean`. -/
theorem addServiceReview_conflict_and_mean_witness :
    addServiceReview [⟨1, 9, ⟨9 / 2, 2, [⟨4, 4, "good"⟩, ⟨5, 5, "great"⟩]⟩, true⟩]
        1 4 3 "again"
      = ⟨400, "You have already reviewed this service",
          [⟨1, 9, ⟨9 / 2, 2, [⟨4, 4, "good"⟩, ⟨5, 5, "great"⟩]⟩, true⟩]⟩ ∧
    (addServiceReview [⟨1, 9, ⟨9 / 2, 2, [⟨4, 4, "good"⟩, ⟨5, 5, "great"⟩]⟩, true⟩]
        1 6 3 "ok").status = 201 ∧
    ∃ s2, findService (addServiceReview
        [⟨1, 9, ⟨9 / 2, 2, [⟨4, 4, "good"⟩, ⟨5, 5, "great"⟩]⟩, true⟩]
        1 6 3 "ok").services 1 = some s2 ∧
      s2.rating.count = (s2.rating.reviews.length : Int) ∧
      s2.rating.average = (((s2.rating.reviews.map Review.rating).sum : Int) : Rat)
        / (s2.rating.reviews.length : Rat) :=
  addServiceReview_conflict_and_mean
    [⟨1, 9, ⟨9 / 2, 2, [⟨4, 4, "good"⟩, ⟨5, 5, "great"⟩]⟩, true⟩]
    1 4 6 3 3 "again" "ok" ⟨1, 9, ⟨9 / 2, 2, [⟨4, 4, "good"⟩, ⟨5, 5, "great"⟩]⟩, true⟩
    rfl (by decide) (by decide) (by decide) (by decide)
    (by decide) (by decide) (by decide) (by decide) (by decide)
